import Mathlib

/-!
Shallow embedding of `DependenceAnalyzer` from
`src/dependence_analyzer.py` (root-level version) and
`src/src/dependence_analyzer.py` (package-level version).

Modelling conventions:
* A numeric cell is `Option ℚ`: `none` models a missing value (NaN).
* A source table is specialised to the two columns under analysis
  (comparer, comparable): a row is a pair of optional rationals.  The
  Python functions receive column names and a full DataFrame; every claim
  is about the contents of the two selected columns only, so quantifying
  over `List Row` quantifies over all tables and column choices.
* `pandas.Series.median` drops missing values, sorts, and takes the middle
  element (odd length) or the mean of the two middle elements (even
  length); `medianO` implements exactly that, returning `none` for an
  empty (all-missing) column, as pandas returns NaN.
* `.round(3)` in the source is numpy rounding: round half to even at the
  third decimal.  `round3` implements decimal round-half-even on ℚ.
* `scipy.stats.ttest_ind` and `pandas.Series.corr` are third-party
  library calls, not code of this repository; they are passed in as
  oracle parameters (`TTestFn`, `CorrFn`).  Everything the repository
  itself does around them (grouping, dropna, rounding, tuple building,
  result-row accumulation) is embedded concretely.
-/

namespace CrimeDep

/-- One row of the source table restricted to the two analysed columns.
`comparer` is the cell of the comparer column, `comparable` the cell of
the comparable column; `none` is a missing value (NaN). -/
structure Row where
  comparer : Option ℚ
  comparable : Option ℚ
  deriving DecidableEq, Repr

/-- Round half to even to an integer (numpy's rounding rule). -/
def rhe (x : ℚ) : ℤ :=
  let f := ⌊x⌋
  let r := x - f
  if r < 1 / 2 then f
  else if 1 / 2 < r then f + 1
  else if f % 2 = 0 then f else f + 1

/-- `.round(3)`: round half to even at the third decimal place. -/
def round3 (x : ℚ) : ℚ := (rhe (x * 1000) : ℚ) / 1000

/-- Insert into a sorted list (ascending). -/
def insertSorted (x : ℚ) : List ℚ → List ℚ
  | [] => [x]
  | y :: t => if x ≤ y then x :: y :: t else y :: insertSorted x t

/-- Ascending sort, as pandas sorts a column before taking its median. -/
def sortQ : List ℚ → List ℚ
  | [] => []
  | x :: t => insertSorted x (sortQ t)

/-- `pandas.Series.median` on the non-missing values of a column:
middle element of the sorted list, or the mean of the two middle
elements; `none` (NaN) on an empty list. -/
def medianO (l : List ℚ) : Option ℚ :=
  let s := sortQ l
  if s.length = 0 then none
  else if s.length % 2 = 1 then some (s.getD (s.length / 2) 0)
  else some ((s.getD (s.length / 2 - 1) 0 + s.getD (s.length / 2) 0) / 2)

/-- `df[comparer_column] > median`: `False` on a missing cell or a missing
median, otherwise strict comparison (row kept in the high group). -/
def cmpGT (v m : Option ℚ) : Bool :=
  match v, m with
  | some x, some y => decide (y < x)
  | _, _ => false

/-- `df[comparer_column] <= median`: `False` on a missing cell or a missing
median, otherwise non-strict comparison (row kept in the low group). -/
def cmpLE (v m : Option ℚ) : Bool :=
  match v, m with
  | some x, some y => decide (x ≤ y)
  | _, _ => false

/-- `df[df[comparer_column] > median_comparer]`. -/
def groupHigh (df : List Row) (m : Option ℚ) : List Row :=
  df.filter (fun r => cmpGT r.comparer m)

/-- `df[df[comparer_column] <= median_comparer]`. -/
def groupLow (df : List Row) (m : Option ℚ) : List Row :=
  df.filter (fun r => cmpLE r.comparer m)

/-- `DataFrame.round(3)` applied to a row: rounds every present cell. -/
def roundRow (r : Row) : Row :=
  ⟨r.comparer.map round3, r.comparable.map round3⟩

/-- The pairs on which `Series.corr` works: rows with both cells present
(pandas excludes missing values pairwise). -/
def pairsOf (df : List Row) : List (ℚ × ℚ) :=
  df.filterMap (fun r => r.comparer.bind (fun a => r.comparable.map (fun b => (a, b))))

/-- Median of the comparer column (missing values dropped). -/
def comparerMedian (df : List Row) : Option ℚ :=
  medianO (df.filterMap Row.comparer)

/-- Non-missing values of the comparable column: both the implicit NaN
skipping of `Series.median` and the explicit `.dropna()` before the
t-test produce this list. -/
def comparableVals (df : List Row) : List ℚ :=
  df.filterMap Row.comparable

/-- Oracle for `pandas.Series.corr` (Pearson, pairwise-complete input). -/
abbrev CorrFn := List (ℚ × ℚ) → Option ℚ

/-- Oracle for `scipy.stats.ttest_ind` restricted to its two-tailed
p-value (the repository discards the t statistic); `none` models NaN. -/
abbrev TTestFn := List ℚ → List ℚ → Option ℚ

/-- The 6-tuple returned by `calculate_dependence_statistics`. -/
structure Stats where
  median_comparer : Option ℚ
  median_comparable : Option ℚ
  median_comparable_high : Option ℚ
  median_comparable_low : Option ℚ
  correlation : Option ℚ
  p_value : Option ℚ
  deriving DecidableEq, Repr

/-- Root-level `DependenceAnalyzer.calculate_dependence_statistics`
(`src/dependence_analyzer.py`, lines 40-55): medians and groups are
taken on the raw data and only the p-value is rounded to 3 decimals. -/
def calculate_dependence_statistics (corrFn : CorrFn) (ttestFn : TTestFn)
    (df : List Row) : Stats :=
  { median_comparer := comparerMedian df
    median_comparable := medianO (comparableVals df)
    median_comparable_high := medianO (comparableVals (groupHigh df (comparerMedian df)))
    median_comparable_low := medianO (comparableVals (groupLow df (comparerMedian df)))
    correlation := corrFn (pairsOf df)
    p_value := Option.map round3
      (ttestFn (comparableVals (groupHigh df (comparerMedian df)))
               (comparableVals (groupLow df (comparerMedian df)))) }

/-- Package-level `DependenceAnalyzer.calculate_dependence_statistics`
(`src/src/dependence_analyzer.py`, lines 36-52): the medians are rounded,
the groups are built from the rounded comparer median and then rounded
cell-wise (`.round(3)` on the group DataFrames), the group medians,
correlation and p-value are rounded again. -/
def calculate_dependence_statistics_src (corrFn : CorrFn) (ttestFn : TTestFn)
    (df : List Row) : Stats :=
  { median_comparer := Option.map round3 (comparerMedian df)
    median_comparable := Option.map round3 (medianO (comparableVals df))
    median_comparable_high := Option.map round3
      (medianO (comparableVals ((groupHigh df (Option.map round3 (comparerMedian df))).map roundRow)))
    median_comparable_low := Option.map round3
      (medianO (comparableVals ((groupLow df (Option.map round3 (comparerMedian df))).map roundRow)))
    correlation := Option.map round3 (corrFn (pairsOf df))
    p_value := Option.map round3
      (ttestFn (comparableVals ((groupHigh df (Option.map round3 (comparerMedian df))).map roundRow))
               (comparableVals ((groupLow df (Option.map round3 (comparerMedian df))).map roundRow))) }

/-- NaN-propagating subtraction of optional values. -/
def subO : Option ℚ → Option ℚ → Option ℚ
  | some a, some b => some (a - b)
  | _, _ => none

/-- NaN-propagating absolute value. -/
def absO (x : Option ℚ) : Option ℚ := x.map (fun a => |a|)

/-- NaN-propagating division; division by zero yields an undefined
(non-finite) value, modelled as `none`. -/
def divO : Option ℚ → Option ℚ → Option ℚ
  | some a, some b => if b = 0 then none else some (a / b)
  | _, _ => none

/-- NaN-propagating multiplication by a constant. -/
def mulO (x : Option ℚ) (c : ℚ) : Option ℚ := x.map (fun a => a * c)

/-- One row of the result table, mirroring the dict literal written by
`_save_stats_to_df` (identical in both versions of the analyzer). -/
structure ResultRow where
  comparer_column : String
  average_comparer : Option ℚ
  average_comparable_higher : Option ℚ
  average_comparable_lower : Option ℚ
  difference : Option ℚ
  difference_percent : Option ℚ
  correlation : Option ℚ
  p_value : Option ℚ
  deriving DecidableEq, Repr

/-- The row value assigned by `_save_stats_to_df`:
`diff = abs(avg_comparable_high - avg_comparable_low)` and
`difference_percent = diff / avg_comparable * 100` (no rounding here). -/
def mkResultRow (comparer_column : String)
    (avg_comparer avg_comparable_high avg_comparable_low avg_comparable
      corr p_value : Option ℚ) : ResultRow :=
  { comparer_column := comparer_column
    average_comparer := avg_comparer
    average_comparable_higher := avg_comparable_high
    average_comparable_lower := avg_comparable_low
    difference := absO (subO avg_comparable_high avg_comparable_low)
    difference_percent := mulO (divO (absO (subO avg_comparable_high avg_comparable_low)) avg_comparable) 100
    correlation := corr
    p_value := p_value }

/-- The result table: rows indexed by comparer-column name, in insertion
order, as a pandas DataFrame with a string index. -/
abbrev ResultTable := List (String × ResultRow)

/-- `df.loc[key] = row`: overwrite every row carrying the index `key`,
or append a new row when the index is absent. -/
def upsert (df : ResultTable) (key : String) (row : ResultRow) : ResultTable :=
  if df.any (fun p => p.1 == key) then
    df.map (fun p => if p.1 == key then (key, row) else p)
  else df ++ [(key, row)]

/-- `DependenceAnalyzer._save_stats_to_df` (both versions): build the row
from the six statistics and upsert it under the comparer column name. -/
def save_stats_to_df (df : ResultTable) (comparer_column : String)
    (avg_comparer avg_comparable_high avg_comparable_low avg_comparable
      corr p_value : Option ℚ) : ResultTable :=
  upsert df comparer_column
    (mkResultRow comparer_column avg_comparer avg_comparable_high
      avg_comparable_low avg_comparable corr p_value)

/-- Root-level `DependenceAnalyzer.calculate_dependence_by_column`
(`src/dependence_analyzer.py`, lines 158-193): compute the statistics on
the source table, then save them into the result table; the printing and
plotting calls are commented out in the source. -/
def calculate_dependence_by_column (corrFn : CorrFn) (ttestFn : TTestFn)
    (df : List Row) (df_result : ResultTable) (comparer_column : String) :
    ResultTable :=
  let s := calculate_dependence_statistics corrFn ttestFn df
  save_stats_to_df df_result comparer_column s.median_comparer
    s.median_comparable_high s.median_comparable_low s.median_comparable
    s.correlation s.p_value

/-- A degenerate correlation oracle used for concrete instantiations. -/
def corrNone : CorrFn := fun _ => none

/-- A degenerate t-test oracle used for concrete instantiations. -/
def ttestNone : TTestFn := fun _ _ => none

/-- Concrete row: country with comparer 1, comparable 10. -/
def r1 : Row := ⟨some 1, some 10⟩

/-- Concrete row: country with comparer 2, comparable 20. -/
def r2 : Row := ⟨some 2, some 20⟩

/-- A two-row concrete table used by the witnesses. -/
def dfW : List Row := [r1, r2]

/-- A table whose comparer values all equal 7/5000 = 0.0014, whose
3-decimal rounding is 0.001. -/
def dfTie : List Row := [⟨some (7/5000), some 1⟩, ⟨some (7/5000), some 2⟩]

/-- A table whose comparer values all equal 5 (already at 3 decimals). -/
def dfConst : List Row := [⟨some 5, some 1⟩, ⟨some 5, some 3⟩]

/-- A one-row table whose comparer value 1/2500 = 0.0004 is not a
multiple of 0.001. -/
def dfSingle : List Row := [⟨some (1/2500), some 1⟩]

/-- A table whose comparable values equal 1/2500 = 0.0004. -/
def dfTen : List Row := [⟨some 0, some (1/2500)⟩, ⟨some 1, some (1/2500)⟩]

/-! ### Helper lemmas about the embedded operations -/

theorem insertSorted_perm (x : ℚ) (l : List ℚ) : (insertSorted x l).Perm (x :: l) := by
  induction l with
  | nil => exact List.Perm.refl _
  | cons y t ih =>
    simp only [insertSorted]
    split
    · exact List.Perm.refl _
    · exact (ih.cons y).trans (List.Perm.swap x y t)

theorem sortQ_perm (l : List ℚ) : (sortQ l).Perm l := by
  induction l with
  | nil => exact List.Perm.refl _
  | cons x t ih => exact (insertSorted_perm x (sortQ t)).trans (ih.cons x)

theorem getD_mem (l : List ℚ) (i : ℕ) (d : ℚ) (h : i < l.length) : l.getD i d ∈ l := by
  induction l generalizing i with
  | nil => simp at h
  | cons x t ih =>
    cases i with
    | zero => simp [List.getD]
    | succ n =>
      simp only [List.getD_cons_succ]
      exact List.mem_cons_of_mem _ (ih n (by simpa using h))

theorem medianO_eq_none_iff (l : List ℚ) : medianO l = none ↔ l = [] := by
  have hlen : (sortQ l).length = l.length := (sortQ_perm l).length_eq
  simp only [medianO]
  split
  · next h0 =>
    have : l = [] := List.length_eq_zero.mp (hlen ▸ h0)
    simp [this]
  · next h0 =>
    have hne : l ≠ [] := by
      intro he
      subst he
      simp [sortQ] at h0
    split <;> simp [hne]

theorem medianO_const (l : List ℚ) (mv : ℚ) (hne : l ≠ [])
    (hall : ∀ x ∈ l, x = mv) : medianO l = some mv := by
  have hperm := sortQ_perm l
  have hlen : (sortQ l).length = l.length := hperm.length_eq
  have hmem : ∀ x ∈ sortQ l, x = mv := fun x hx => hall x (hperm.mem_iff.mp hx)
  have hlpos : 0 < (sortQ l).length := by
    rw [hlen]
    exact List.length_pos.mpr hne
  have hget : ∀ i, i < (sortQ l).length → (sortQ l).getD i 0 = mv :=
    fun i hi => hmem _ (getD_mem _ i 0 hi)
  simp only [medianO]
  split
  · next h0 => omega
  · split
    · next =>
      rw [hget _ (by omega)]
    · next =>
      rw [hget _ (by omega), hget _ (by omega)]
      norm_num

theorem rhe_intCast (n : ℤ) : rhe (n : ℚ) = n := by
  simp only [rhe, Int.floor_intCast, sub_self]
  norm_num

theorem round3_int_div (n : ℤ) : round3 ((n : ℚ) / 1000) = (n : ℚ) / 1000 := by
  have h : ((n : ℚ) / 1000) * 1000 = (n : ℚ) := by field_simp
  simp only [round3, h, rhe_intCast]

theorem round3_fixed (x : ℚ) (h : round3 x = x) : ∃ n : ℤ, x = (n : ℚ) / 1000 := by
  refine ⟨rhe (x * 1000), ?_⟩
  conv_lhs => rw [← h]
  rfl

theorem round3_idem (x : ℚ) : round3 (round3 x) = round3 x :=
  round3_int_div (rhe (x * 1000))

theorem round3_abs_sub (a b : ℚ) (ha : round3 a = a) (hb : round3 b = b) :
    round3 |a - b| = |a - b| := by
  obtain ⟨m, hm⟩ := round3_fixed a ha
  obtain ⟨n, hn⟩ := round3_fixed b hb
  subst hm hn
  have h1 : (m : ℚ) / 1000 - (n : ℚ) / 1000 = ((m - n : ℤ) : ℚ) / 1000 := by
    push_cast
    ring
  rw [h1, abs_div, show |(1000 : ℚ)| = 1000 by norm_num, ← Int.cast_abs, round3_int_div]

theorem mem_groupHigh_iff (df : List Row) (m : Option ℚ) (r : Row) :
    r ∈ groupHigh df m ↔ r ∈ df ∧ cmpGT r.comparer m := by
  simp [groupHigh, List.mem_filter]

theorem mem_groupLow_iff (df : List Row) (m : Option ℚ) (r : Row) :
    r ∈ groupLow df m ↔ r ∈ df ∧ cmpLE r.comparer m := by
  simp [groupLow, List.mem_filter]

theorem cmpGT_some (x mv : ℚ) : cmpGT (some x) (some mv) = decide (mv < x) := rfl

theorem cmpLE_some (x mv : ℚ) : cmpLE (some x) (some mv) = decide (x ≤ mv) := rfl

theorem not_both_groups (v m : Option ℚ) : ¬(cmpGT v m = true ∧ cmpLE v m = true) := by
  rintro ⟨h1, h2⟩
  cases v with
  | none => simp [cmpGT] at h1
  | some x =>
    cases m with
    | none => simp [cmpGT] at h1
    | some y =>
      simp [cmpGT] at h1
      simp [cmpLE] at h2
      exact absurd h2 (not_le.mpr h1)

theorem group_partition (df : List Row) (mv : ℚ) :
    (groupHigh df (some mv) ++ groupLow df (some mv)).Perm
      (df.filter (fun r => r.comparer.isSome)) := by
  induction df with
  | nil => exact List.Perm.refl _
  | cons r t ih =>
    rcases hr : r.comparer with _ | x
    · have h1 : cmpGT r.comparer (some mv) = false := by simp [cmpGT, hr]
      have h2 : cmpLE r.comparer (some mv) = false := by simp [cmpLE, hr]
      simpa [groupHigh, groupLow, List.filter_cons, h1, h2, hr] using ih
    · by_cases hx : mv < x
      · have h1 : cmpGT (some x) (some mv) = true := by simp [cmpGT, hx]
        have h2 : cmpLE (some x) (some mv) = false := by simp [cmpLE, not_le.mpr hx]
        simpa [groupHigh, groupLow, List.filter_cons, h1, h2, hr] using ih.cons r
      · have h1 : cmpGT (some x) (some mv) = false := by simp [cmpGT, hx]
        have h2 : cmpLE (some x) (some mv) = true := by simp [cmpLE, le_of_not_lt hx]
        simp only [groupHigh, groupLow, List.filter_cons, hr, h1, h2]
        simp only [if_false, if_true, Option.isSome_some, Bool.false_eq_true, ite_false, ite_true]
        exact List.perm_middle.trans (ih.cons r)

theorem groupHigh_none (df : List Row) : groupHigh df none = [] := by
  rw [groupHigh, List.filter_eq_nil_iff]
  intro r _
  cases h : r.comparer <;> simp [cmpGT, h]

theorem groupLow_none (df : List Row) : groupLow df none = [] := by
  rw [groupLow, List.filter_eq_nil_iff]
  intro r _
  cases h : r.comparer <;> simp [cmpLE, h]

theorem filter_map_overwrite (tbl : ResultTable) (k : String) (row : ResultRow) :
    (tbl.map (fun p => if p.1 == k then (k, row) else p)).filter
        (fun p => !(p.1 == k)) =
      tbl.filter (fun p => !(p.1 == k)) := by
  induction tbl with
  | nil => rfl
  | cons q t ih =>
    by_cases hq : q.1 = k
    · have hq' : (q.1 == k) = true := beq_iff_eq.mpr hq
      simp only [List.map_cons, List.filter_cons, hq', if_true, beq_self_eq_true,
        Bool.not_true, Bool.false_eq_true, if_false, ite_true, ite_false]
      exact ih
    · have hq' : (q.1 == k) = false := by
        simpa using hq
      simp only [List.map_cons, List.filter_cons, hq', Bool.false_eq_true, ite_false,
        Bool.not_false, ite_true]
      rw [ih]

theorem filter_map_overwrite_key (tbl : ResultTable) (k : String) (row : ResultRow) :
    (tbl.map (fun p => if p.1 == k then (k, row) else p)).filter
        (fun p => p.1 == k) =
      List.replicate ((tbl.filter (fun p => p.1 == k)).length) (k, row) := by
  induction tbl with
  | nil => rfl
  | cons q t ih =>
    by_cases hq : q.1 = k
    · have hq' : (q.1 == k) = true := beq_iff_eq.mpr hq
      simp only [List.map_cons, List.filter_cons, hq', if_true, beq_self_eq_true,
        ite_true, List.length_cons, List.replicate_succ]
      rw [ih]
    · have hq' : (q.1 == k) = false := by
        simpa using hq
      simp only [List.map_cons, List.filter_cons, hq', Bool.false_eq_true, ite_false]
      exact ih

theorem upsert_filter_not_key (tbl : ResultTable) (k : String) (row : ResultRow) :
    (upsert tbl k row).filter (fun p => !(p.1 == k)) =
      tbl.filter (fun p => !(p.1 == k)) := by
  rw [upsert]
  split
  · exact filter_map_overwrite tbl k row
  · simp [List.filter_append]

theorem upsert_filter_key (tbl : ResultTable) (k : String) (row : ResultRow)
    (h : (tbl.filter (fun p => p.1 == k)).length ≤ 1) :
    (upsert tbl k row).filter (fun p => p.1 == k) = [(k, row)] := by
  rw [upsert]
  split
  · next hany =>
    rw [filter_map_overwrite_key]
    obtain ⟨p, hp, hpk⟩ := List.any_eq_true.mp hany
    have hmem : p ∈ tbl.filter (fun p => p.1 == k) := List.mem_filter.mpr ⟨hp, hpk⟩
    have h1 : 0 < (tbl.filter (fun p => p.1 == k)).length :=
      List.length_pos.mpr (List.ne_nil_of_mem hmem)
    have he : (tbl.filter (fun p => p.1 == k)).length = 1 := by omega
    rw [he]
    rfl
  · next hany =>
    have hnil : tbl.filter (fun p => p.1 == k) = [] := by
      rw [List.filter_eq_nil_iff]
      intro p hp
      intro hpk
      exact hany (List.any_eq_true.mpr ⟨p, hp, hpk⟩)
    rw [List.filter_append, hnil]
    simp

/-! ### Additional lemmas used by the claim theorems -/

theorem filterMap_const (df : List Row) (mv : ℚ)
    (hall : ∀ r ∈ df, r.comparer = some mv) :
    df.filterMap Row.comparer = df.map (fun _ => mv) := by
  induction df with
  | nil => rfl
  | cons r t ih =>
    have hr : r.comparer = some mv := hall r (List.mem_cons_self r t)
    simp only [List.filterMap_cons, hr, List.map_cons]
    rw [ih (fun q hq => hall q (List.mem_cons_of_mem r hq))]

theorem comparerMedian_const (df : List Row) (mv : ℚ) (hne : df ≠ [])
    (hall : ∀ r ∈ df, r.comparer = some mv) :
    comparerMedian df = some mv := by
  rw [comparerMedian, filterMap_const df mv hall]
  apply medianO_const
  · simp [hne]
  · intro x hx
    obtain ⟨a, _, ha⟩ := List.mem_map.mp hx
    exact ha.symm

theorem mapRound3_idem (o : Option ℚ) :
    Option.map round3 (Option.map round3 o) = Option.map round3 o := by
  cases o with
  | none => rfl
  | some x => simp [round3_idem]

/-! ### Claim theorems -/

/-- C1: `calculate_dependence_statistics` partitions the rows by the
comparer-column median with strict inequality: the high group is exactly
the rows whose comparer value is strictly greater than the median, the
low group exactly those whose comparer value is less than or equal to
it, so a row whose comparer value ties the median goes to the low group;
and the group medians of the returned tuple are computed over exactly
these groups. -/
theorem partition_by_median_strict (corrFn : CorrFn) (ttestFn : TTestFn)
    (df : List Row) (r : Row) (x mv : ℚ)
    (hx : r.comparer = some x) :
    ((calculate_dependence_statistics corrFn ttestFn df).median_comparable_high
        = medianO (comparableVals (groupHigh df (comparerMedian df)))) ∧
    ((calculate_dependence_statistics corrFn ttestFn df).median_comparable_low
        = medianO (comparableVals (groupLow df (comparerMedian df)))) ∧
    (r ∈ groupHigh df (some mv) ↔ r ∈ df ∧ mv < x) ∧
    (r ∈ groupLow df (some mv) ↔ r ∈ df ∧ x ≤ mv) ∧
    (x = mv → r ∉ groupHigh df (some mv) ∧ (r ∈ df → r ∈ groupLow df (some mv))) := by
  refine ⟨rfl, rfl, ?_, ?_, ?_⟩
  · rw [mem_groupHigh_iff]
    simp [cmpGT, hx]
  · rw [mem_groupLow_iff]
    simp [cmpLE, hx]
  · intro he
    constructor
    · rw [mem_groupHigh_iff]
      simp [cmpGT, hx, he]
    · intro hel
      rw [mem_groupLow_iff]
      simp [cmpLE, hx, he, hel]

/-- C1 witness: on the table `[⟨1,10⟩, ⟨2,20⟩]` with median 3/2, the row
with comparer 1 is in the low group and not in the high group. -/
theorem partition_by_median_strict_witness :
    ((calculate_dependence_statistics corrNone ttestNone dfW).median_comparable_high
        = medianO (comparableVals (groupHigh dfW (comparerMedian dfW)))) ∧
    ((calculate_dependence_statistics corrNone ttestNone dfW).median_comparable_low
        = medianO (comparableVals (groupLow dfW (comparerMedian dfW)))) ∧
    (r1 ∈ groupHigh dfW (some (3/2)) ↔ r1 ∈ dfW ∧ (3/2 : ℚ) < 1) ∧
    (r1 ∈ groupLow dfW (some (3/2)) ↔ r1 ∈ dfW ∧ (1 : ℚ) ≤ 3/2) ∧
    ((1 : ℚ) = 3/2 → r1 ∉ groupHigh dfW (some (3/2)) ∧ (r1 ∈ dfW → r1 ∈ groupLow dfW (some (3/2)))) :=
  partition_by_median_strict corrNone ttestNone dfW r1 1 (3/2) rfl

/-- C2 counterexample: in the root-level version the returned
`median_comparer` on the table `[⟨0.0004, 1⟩]` is 0.0004, which is not a
value rounded to 3 decimal places, so not every numeric statistic
returned by `calculate_dependence_statistics` is rounded. -/
theorem stats_rounded_cex :
    (calculate_dependence_statistics corrNone ttestNone dfSingle).median_comparer
        = some (1/2500) ∧
    Option.map round3
        ((calculate_dependence_statistics corrNone ttestNone dfSingle).median_comparer)
      ≠ (calculate_dependence_statistics corrNone ttestNone dfSingle).median_comparer := by
  have h : (calculate_dependence_statistics corrNone ttestNone dfSingle).median_comparer
      = some (1/2500) := by
    norm_num [calculate_dependence_statistics, comparerMedian, dfSingle, medianO,
      sortQ, insertSorted]
  refine ⟨h, ?_⟩
  rw [h]
  norm_num [round3, rhe]

/-- C2 amended: in the package-level version every numeric statistic of
the returned 6-tuple is rounded to 3 decimal places (it is a fixed point
of rounding); the root-level version guarantees this only for the
p-value.  In the result row, DIFFERENCE stays a fixed point of rounding
whenever its two inputs are, and DIFFERENCE_PERCENT is computed from the
inputs by difference / median_comparable × 100 with no rounding of its
own. -/
theorem stats_rounded_amended (corrFn : CorrFn) (ttestFn : TTestFn) (df : List Row) :
    (Option.map round3 (calculate_dependence_statistics_src corrFn ttestFn df).median_comparer
        = (calculate_dependence_statistics_src corrFn ttestFn df).median_comparer) ∧
    (Option.map round3 (calculate_dependence_statistics_src corrFn ttestFn df).median_comparable
        = (calculate_dependence_statistics_src corrFn ttestFn df).median_comparable) ∧
    (Option.map round3 (calculate_dependence_statistics_src corrFn ttestFn df).median_comparable_high
        = (calculate_dependence_statistics_src corrFn ttestFn df).median_comparable_high) ∧
    (Option.map round3 (calculate_dependence_statistics_src corrFn ttestFn df).median_comparable_low
        = (calculate_dependence_statistics_src corrFn ttestFn df).median_comparable_low) ∧
    (Option.map round3 (calculate_dependence_statistics_src corrFn ttestFn df).correlation
        = (calculate_dependence_statistics_src corrFn ttestFn df).correlation) ∧
    (Option.map round3 (calculate_dependence_statistics_src corrFn ttestFn df).p_value
        = (calculate_dependence_statistics_src corrFn ttestFn df).p_value) ∧
    (Option.map round3 (calculate_dependence_statistics corrFn ttestFn df).p_value
        = (calculate_dependence_statistics corrFn ttestFn df).p_value) ∧
    (∀ (k : String) (mc corr p mh ml m : Option ℚ),
      Option.map round3 mh = mh → Option.map round3 ml = ml →
      Option.map round3 (mkResultRow k mc mh ml m corr p).difference
        = (mkResultRow k mc mh ml m corr p).difference) ∧
    (∀ (k : String) (mc corr p mh ml m : Option ℚ),
      (mkResultRow k mc mh ml m corr p).difference_percent
        = mulO (divO (absO (subO mh ml)) m) 100) := by
  refine ⟨mapRound3_idem _, mapRound3_idem _, mapRound3_idem _, mapRound3_idem _,
    mapRound3_idem _, mapRound3_idem _, mapRound3_idem _, ?_, ?_⟩
  · intro k mc corr p mh ml m hmh hml
    cases mh with
    | none => simp [mkResultRow, subO, absO]
    | some a =>
      cases ml with
      | none => simp [mkResultRow, subO, absO]
      | some b =>
        have ha : round3 a = a := by simpa using hmh
        have hb : round3 b = b := by simpa using hml
        simp [mkResultRow, subO, absO, round3_abs_sub a b ha hb]
  · intro k mc corr p mh ml m
    rfl

/-- C4: the p-value returned by both versions is exactly the rounded
result of the two-sample test oracle applied to the two groups'
comparable values with missing values dropped independently from each
group, and nothing else of the test is kept; when the t-test is
undefined on groups with fewer than 2 values (as `scipy.stats.ttest_ind`
is), the returned p-value is undefined. -/
theorem ttest_pvalue_spec (corrFn : CorrFn) (ttestFn : TTestFn) (df : List Row)
    (htt : ∀ a b : List ℚ, a.length < 2 ∨ b.length < 2 → ttestFn a b = none) :
    ((calculate_dependence_statistics corrFn ttestFn df).p_value
      = Option.map round3 (ttestFn
          (comparableVals (groupHigh df (comparerMedian df)))
          (comparableVals (groupLow df (comparerMedian df))))) ∧
    ((calculate_dependence_statistics_src corrFn ttestFn df).p_value
      = Option.map round3 (ttestFn
          (comparableVals ((groupHigh df (Option.map round3 (comparerMedian df))).map roundRow))
          (comparableVals ((groupLow df (Option.map round3 (comparerMedian df))).map roundRow)))) ∧
    ((comparableVals (groupHigh df (comparerMedian df))).length < 2 ∨
        (comparableVals (groupLow df (comparerMedian df))).length < 2 →
      (calculate_dependence_statistics corrFn ttestFn df).p_value = none) := by
  refine ⟨rfl, rfl, ?_⟩
  intro h
  have hnone := htt (comparableVals (groupHigh df (comparerMedian df)))
    (comparableVals (groupLow df (comparerMedian df))) h
  show Option.map round3 (ttestFn
    (comparableVals (groupHigh df (comparerMedian df)))
    (comparableVals (groupLow df (comparerMedian df)))) = none
  rw [hnone]
  rfl

/-- C4 witness: the p-value equations and the small-group case evaluated
on the concrete two-row table with the degenerate oracle. -/
theorem ttest_pvalue_spec_witness :
    ((calculate_dependence_statistics corrNone ttestNone dfW).p_value
      = Option.map round3 (ttestNone
          (comparableVals (groupHigh dfW (comparerMedian dfW)))
          (comparableVals (groupLow dfW (comparerMedian dfW))))) ∧
    ((calculate_dependence_statistics_src corrNone ttestNone dfW).p_value
      = Option.map round3 (ttestNone
          (comparableVals ((groupHigh dfW (Option.map round3 (comparerMedian dfW))).map roundRow))
          (comparableVals ((groupLow dfW (Option.map round3 (comparerMedian dfW))).map roundRow)))) ∧
    ((comparableVals (groupHigh dfW (comparerMedian dfW))).length < 2 ∨
        (comparableVals (groupLow dfW (comparerMedian dfW))).length < 2 →
      (calculate_dependence_statistics corrNone ttestNone dfW).p_value = none) :=
  ttest_pvalue_spec corrNone ttestNone dfW (fun _ _ _ => rfl)

/-- C5: the row written by the result-accumulation step satisfies
DIFFERENCE = |median_comparable_high − median_comparable_low| and
DIFFERENCE_PERCENT = DIFFERENCE / median_comparable × 100, and
`_save_stats_to_df` upserts exactly that row. -/
theorem save_stats_difference (tbl : ResultTable) (k : String)
    (mc corr p : Option ℚ) (hi lo m : ℚ) (hm : m ≠ 0) :
    (mkResultRow k mc (some hi) (some lo) (some m) corr p).difference = some |hi - lo| ∧
    (mkResultRow k mc (some hi) (some lo) (some m) corr p).difference_percent
      = some (|hi - lo| / m * 100) ∧
    save_stats_to_df tbl k mc (some hi) (some lo) (some m) corr p
      = upsert tbl k (mkResultRow k mc (some hi) (some lo) (some m) corr p) := by
  refine ⟨rfl, ?_, rfl⟩
  simp [mkResultRow, subO, absO, divO, mulO, hm]

/-- C5 witness: with group medians 35 and 15 and overall median 25 the
written row has DIFFERENCE |35 − 15| and DIFFERENCE_PERCENT
|35 − 15| / 25 × 100. -/
theorem save_stats_difference_witness :
    (mkResultRow "GDP" none (some 35) (some 15) (some 25) none none).difference
        = some |(35:ℚ) - 15| ∧
    (mkResultRow "GDP" none (some 35) (some 15) (some 25) none none).difference_percent
        = some (|(35:ℚ) - 15| / 25 * 100) ∧
    save_stats_to_df [] "GDP" none (some 35) (some 15) (some 25) none none
      = upsert [] "GDP" (mkResultRow "GDP" none (some 35) (some 15) (some 25) none none) :=
  save_stats_difference [] "GDP" none none none 35 15 25 (by norm_num)

/-- C6: the high and low groups built from the comparer median are
disjoint, their multiset union is exactly the rows of the table with a
present comparer value, and every row with a present comparer value
lands in one of the two groups. -/
theorem groups_partition_table (df : List Row) :
    (∀ r : Row, ¬(r ∈ groupHigh df (comparerMedian df) ∧ r ∈ groupLow df (comparerMedian df))) ∧
    (groupHigh df (comparerMedian df) ++ groupLow df (comparerMedian df)).Perm
      (df.filter (fun r => r.comparer.isSome)) ∧
    (∀ r ∈ df, r.comparer.isSome → r ∈ groupHigh df (comparerMedian df) ∨ r ∈ groupLow df (comparerMedian df)) := by
  have hdisj : ∀ r : Row, ¬(r ∈ groupHigh df (comparerMedian df) ∧ r ∈ groupLow df (comparerMedian df)) := by
    intro r ⟨h1, h2⟩
    exact not_both_groups r.comparer (comparerMedian df)
      ⟨(mem_groupHigh_iff df _ r).mp h1 |>.2, (mem_groupLow_iff df _ r).mp h2 |>.2⟩
  have hperm : (groupHigh df (comparerMedian df) ++ groupLow df (comparerMedian df)).Perm
      (df.filter (fun r => r.comparer.isSome)) := by
    rcases hm : comparerMedian df with _ | mv
    · have hnil : df.filterMap Row.comparer = [] :=
        (medianO_eq_none_iff _).mp hm
      have : df.filter (fun r => r.comparer.isSome) = [] := by
        rw [List.filter_eq_nil_iff]
        intro r hr
        have := (List.filterMap_eq_nil_iff.mp hnil) r hr
        simp [this]
      rw [groupHigh_none, groupLow_none, this]
      exact List.Perm.refl _
    · exact group_partition df mv
  refine ⟨hdisj, hperm, ?_⟩
  intro r hr hs
  have : r ∈ groupHigh df (comparerMedian df) ++ groupLow df (comparerMedian df) := by
    rw [hperm.mem_iff]
    exact List.mem_filter.mpr ⟨hr, hs⟩
  simpa using List.mem_append.mp this

/-- C6 witness: the partition property evaluated at the concrete
two-row table. -/
theorem groups_partition_table_witness :
    (∀ r : Row, ¬(r ∈ groupHigh dfW (comparerMedian dfW) ∧ r ∈ groupLow dfW (comparerMedian dfW))) ∧
    (groupHigh dfW (comparerMedian dfW) ++ groupLow dfW (comparerMedian dfW)).Perm
      (dfW.filter (fun r => r.comparer.isSome)) ∧
    (∀ r ∈ dfW, r.comparer.isSome → r ∈ groupHigh dfW (comparerMedian dfW) ∨ r ∈ groupLow dfW (comparerMedian dfW)) :=
  groups_partition_table dfW

/-- C7 counterexample: on a table whose comparer values all equal 0.0014
the package-level version groups by the rounded median 0.001, so the
high group is the whole table and `median_comparable_high` is defined
(1.5), contradicting the claim that it is empty/NaN. -/
theorem all_equal_median_high_empty_cex :
    (∀ r ∈ dfTie, r.comparer = some (7/5000)) ∧
    comparerMedian dfTie = some (7/5000) ∧
    groupHigh dfTie (Option.map round3 (comparerMedian dfTie)) ≠ [] ∧
    (calculate_dependence_statistics_src corrNone ttestNone dfTie).median_comparable_high = some (3/2) ∧
    (calculate_dependence_statistics_src corrNone ttestNone dfTie).median_comparable_high ≠ none := by
  refine ⟨?_, ?_, ?_, ?_, ?_⟩
  · intro r hr
    simp only [dfTie, List.mem_cons, List.mem_singleton] at hr
    rcases hr with h | h | h
    · rw [h]
    · rw [h]
    · exact absurd h (List.not_mem_nil r)
  · norm_num [comparerMedian, dfTie, medianO, sortQ, insertSorted]
  · norm_num [comparerMedian, dfTie, medianO, sortQ, insertSorted, groupHigh,
      List.filter, cmpGT, round3, rhe]
    simp
  · norm_num [calculate_dependence_statistics_src, comparerMedian, dfTie, medianO,
      sortQ, insertSorted, groupHigh, List.filter, cmpGT, round3, rhe, roundRow,
      comparableVals, List.filterMap]
  · norm_num [calculate_dependence_statistics_src, comparerMedian, dfTie, medianO,
      sortQ, insertSorted, groupHigh, List.filter, cmpGT, round3, rhe, roundRow,
      comparableVals, List.filterMap]
    simp

/-- C7 amended: if every comparer value equals the comparer median, the
root-level version has an empty high group and an undefined (NaN)
`median_comparable_high`; the package-level version has them too
provided rounding does not decrease the median below the common value
(for example when the values are already at 3 decimals); and a missing
`median_comparable_high` propagates through the result row as an
undefined DIFFERENCE (and DIFFERENCE_PERCENT) rather than an error. -/
theorem all_equal_median_high_empty (corrFn : CorrFn) (ttestFn : TTestFn)
    (df : List Row) (mv : ℚ) (hne : df ≠ [])
    (hall : ∀ r ∈ df, r.comparer = some mv) :
    comparerMedian df = some mv ∧
    groupHigh df (comparerMedian df) = [] ∧
    (calculate_dependence_statistics corrFn ttestFn df).median_comparable_high = none ∧
    (mv ≤ round3 mv →
      (calculate_dependence_statistics_src corrFn ttestFn df).median_comparable_high = none) ∧
    (∀ (k : String) (mc ml m corr p : Option ℚ),
      (mkResultRow k mc none ml m corr p).difference = none ∧
      (mkResultRow k mc none ml m corr p).difference_percent = none) := by
  have hm := comparerMedian_const df mv hne hall
  have hhigh : groupHigh df (comparerMedian df) = [] := by
    rw [hm, groupHigh, List.filter_eq_nil_iff]
    intro r hr
    simp [cmpGT, hall r hr]
  refine ⟨hm, hhigh, ?_, ?_, ?_⟩
  · show medianO (comparableVals (groupHigh df (comparerMedian df))) = none
    rw [hhigh]
    rfl
  · intro hle
    show Option.map round3 (medianO (comparableVals
      ((groupHigh df (Option.map round3 (comparerMedian df))).map roundRow))) = none
    have hh2 : groupHigh df (Option.map round3 (comparerMedian df)) = [] := by
      rw [hm, Option.map_some', groupHigh, List.filter_eq_nil_iff]
      intro r hr
      simp [cmpGT, hall r hr, not_lt.mpr hle]
    rw [hh2]
    rfl
  · intro k mc ml m corr p
    cases ml <;> cases m <;> simp [mkResultRow, subO, absO, divO, mulO]

/-- C7 witness: on a table whose comparer values all equal 5 the high
group is empty, the high-group median is NaN and DIFFERENCE propagates
as NaN. -/
theorem all_equal_median_high_empty_witness :
    comparerMedian dfConst = some 5 ∧
    groupHigh dfConst (comparerMedian dfConst) = [] ∧
    (calculate_dependence_statistics corrNone ttestNone dfConst).median_comparable_high = none ∧
    ((5:ℚ) ≤ round3 5 →
      (calculate_dependence_statistics_src corrNone ttestNone dfConst).median_comparable_high = none) ∧
    (∀ (k : String) (mc ml m corr p : Option ℚ),
      (mkResultRow k mc none ml m corr p).difference = none ∧
      (mkResultRow k mc none ml m corr p).difference_percent = none) :=
  all_equal_median_high_empty corrNone ttestNone dfConst 5
    (by simp [dfConst])
    (by
      intro r hr
      simp only [dfConst, List.mem_cons, List.mem_singleton] at hr
      rcases hr with h | h | h
      · rw [h]
      · rw [h]
      · exact absurd h (List.not_mem_nil r))

/-- C8: writing statistics under a comparer-column key is an upsert:
starting from a table with at most one row under that key, one write
leaves exactly one row for the key holding the written values, and a
second write for the same key overwrites it, still leaving exactly one
row, with the most recent values. -/
theorem result_row_upsert (tbl : ResultTable) (k : String)
    (a₁ b₁ c₁ d₁ e₁ f₁ a₂ b₂ c₂ d₂ e₂ f₂ : Option ℚ)
    (huniq : (tbl.filter (fun p => p.1 == k)).length ≤ 1) :
    (save_stats_to_df tbl k a₁ b₁ c₁ d₁ e₁ f₁).filter (fun p => p.1 == k)
        = [(k, mkResultRow k a₁ b₁ c₁ d₁ e₁ f₁)] ∧
    (save_stats_to_df (save_stats_to_df tbl k a₁ b₁ c₁ d₁ e₁ f₁) k a₂ b₂ c₂ d₂ e₂ f₂).filter
        (fun p => p.1 == k) = [(k, mkResultRow k a₂ b₂ c₂ d₂ e₂ f₂)] := by
  have h1 := upsert_filter_key tbl k (mkResultRow k a₁ b₁ c₁ d₁ e₁ f₁) huniq
  refine ⟨h1, ?_⟩
  apply upsert_filter_key
  show ((upsert tbl k (mkResultRow k a₁ b₁ c₁ d₁ e₁ f₁)).filter (fun p => p.1 == k)).length ≤ 1
  rw [h1]
  simp

/-- C8 witness: two successive writes under the key "GDP" into the empty
result table leave exactly one row, holding the second write's values. -/
theorem result_row_upsert_witness :
    (save_stats_to_df [] "GDP" none none none none none none).filter (fun p => p.1 == "GDP")
        = [("GDP", mkResultRow "GDP" none none none none none none)] ∧
    (save_stats_to_df (save_stats_to_df [] "GDP" none none none none none none) "GDP"
        (some 1) none none none none none).filter (fun p => p.1 == "GDP")
        = [("GDP", mkResultRow "GDP" (some 1) none none none none none)] :=
  result_row_upsert [] "GDP" none none none none none none (some 1) none none none none none
    (by simp)

/-- C9: `calculate_dependence_by_column` only changes the result table at
the row keyed by the comparer column: every other row is left exactly as
it was (same rows, same order), and the row under the key is exactly the
row built from the computed statistics.  The embedding is a pure
function of the source table, which it does not modify. -/
theorem by_column_frame (corrFn : CorrFn) (ttestFn : TTestFn) (df : List Row)
    (tbl : ResultTable) (k : String)
    (huniq : (tbl.filter (fun p => p.1 == k)).length ≤ 1) :
    (calculate_dependence_by_column corrFn ttestFn df tbl k).filter (fun p => !(p.1 == k))
        = tbl.filter (fun p => !(p.1 == k)) ∧
    (calculate_dependence_by_column corrFn ttestFn df tbl k).filter (fun p => p.1 == k)
        = [(k, mkResultRow k
            (calculate_dependence_statistics corrFn ttestFn df).median_comparer
            (calculate_dependence_statistics corrFn ttestFn df).median_comparable_high
            (calculate_dependence_statistics corrFn ttestFn df).median_comparable_low
            (calculate_dependence_statistics corrFn ttestFn df).median_comparable
            (calculate_dependence_statistics corrFn ttestFn df).correlation
            (calculate_dependence_statistics corrFn ttestFn df).p_value)] := by
  constructor
  · exact upsert_filter_not_key tbl k _
  · exact upsert_filter_key tbl k _ huniq

/-- C9 witness: the frame property evaluated at a concrete table, key
and result table. -/
theorem by_column_frame_witness :
    (calculate_dependence_by_column corrNone ttestNone dfW [] "GDP").filter (fun p => !(p.1 == "GDP"))
        = List.filter (fun p => !(p.1 == "GDP")) [] ∧
    (calculate_dependence_by_column corrNone ttestNone dfW [] "GDP").filter (fun p => p.1 == "GDP")
        = [("GDP", mkResultRow "GDP"
            (calculate_dependence_statistics corrNone ttestNone dfW).median_comparer
            (calculate_dependence_statistics corrNone ttestNone dfW).median_comparable_high
            (calculate_dependence_statistics corrNone ttestNone dfW).median_comparable_low
            (calculate_dependence_statistics corrNone ttestNone dfW).median_comparable
            (calculate_dependence_statistics corrNone ttestNone dfW).correlation
            (calculate_dependence_statistics corrNone ttestNone dfW).p_value)] :=
  by_column_frame corrNone ttestNone dfW [] "GDP" (by simp)

/-- C10: the root-level and package-level versions of
`calculate_dependence_statistics` are not extensionally equal: on a
concrete table (with the same library oracles) they return different
6-tuples, the package-level version rounding the data while the
root-level one rounds only the p-value. -/
theorem versions_differ :
    calculate_dependence_statistics corrNone ttestNone dfTen ≠
      calculate_dependence_statistics_src corrNone ttestNone dfTen ∧
    (calculate_dependence_statistics corrNone ttestNone dfTen).median_comparable
        = some (1/2500) ∧
    (calculate_dependence_statistics_src corrNone ttestNone dfTen).median_comparable
        = some 0 := by
  have h2 : (calculate_dependence_statistics corrNone ttestNone dfTen).median_comparable
      = some (1/2500) := by
    norm_num [calculate_dependence_statistics, comparableVals, dfTen, medianO,
      sortQ, insertSorted, List.filterMap]
  have h3 : (calculate_dependence_statistics_src corrNone ttestNone dfTen).median_comparable
      = some 0 := by
    norm_num [calculate_dependence_statistics_src, comparableVals, dfTen, medianO,
      sortQ, insertSorted, List.filterMap, round3, rhe]
  refine ⟨?_, h2, h3⟩
  intro h
  rw [h, h3] at h2
  norm_num at h2

end CrimeDep
